import Mathlib

/-!
Shallow embedding of the `fusi` route registry (src/fusi/route.py and
src/fusi/router.py) and proofs about its registration and lookup logic.

Modelling conventions:
* Python values that `Router.add_route` may receive are modelled by the
  inductive `PyVal` (strings, ints, callables identified by a numeric id,
  lists, `None`), so that `isinstance`/`callable` checks and truthiness are
  expressible.
* A raised Python exception is modelled by `Except PyError _`; `PyError`
  distinguishes `RouterError` (the library's configuration error) from the
  interpreter's `TypeError`/`AttributeError`.
* The mutable `Router` is threaded explicitly: `addRoute` returns the new
  router state together with the result.  In the source the only mutation is
  the final dict assignment `self._routes[route_name] = route`; every `raise`
  happens before it, so each error branch returns the input router unchanged.
* `str.startswith("/")` is embedded as `startsWithSlash`, a first-character
  test, which is exactly what `startswith` means for the one-character
  literal used in the source.
* `Router.match_pattern` carries an `lru_cache` decorator in the source; the
  spec treats memoization as an optional performance layer, not a
  correctness requirement, so the embedding is the function's (uncached)
  body as a function of the router state.
* Python's `if fallback:`/`if self.name:`/`if prefix:` truthiness on
  `Optional[str]` is modelled by `truthy : Option String → Bool` (false for
  `none` and for `some ""`).
-/

namespace Fusi

/-- A Python value that may be passed to `Router.add_route` or
`Route.__init__`: a string, an int, a callable (identified by a numeric id;
handlers are opaque to the library), a list, or `None`. -/
inductive PyVal where
  | vstr : String → PyVal
  | vint : Int → PyVal
  | vfun : Nat → PyVal
  | vlist : List PyVal → PyVal
  | vnone : PyVal

/-- The short Python type name of a value, as it appears in messages like
`'int' object is not iterable`. -/
def pyTypeShort : PyVal → String
  | .vstr _ => "str"
  | .vint _ => "int"
  | .vfun _ => "function"
  | .vlist _ => "list"
  | .vnone => "NoneType"

/-- `str(type(v))`, as interpolated by the f-strings in `Router.add_route`. -/
def pyType (v : PyVal) : String :=
  "<class '" ++ pyTypeShort v ++ "'>"

/-- `isinstance(v, str)`. -/
def isStr : PyVal → Bool
  | .vstr _ => true
  | _ => false

/-- `callable(v)`. -/
def isCallable : PyVal → Bool
  | .vfun _ => true
  | _ => false

/-- The underlying string of a `PyVal` known to be a string (used only after
an `isStr` guard, mirroring how the source uses `name`/`pattern` only after
their `isinstance` checks). -/
def strOf : PyVal → String
  | .vstr s => s
  | _ => ""

/-- The identity of a callable known to pass the `callable` guard.  Handlers
are opaque to the library — stored, returned and compared by identity only —
so a `Route` stores this numeric id in place of the Python object. -/
def funId : PyVal → Nat
  | .vfun k => k
  | _ => 0

/-- A raised Python exception: the library's `RouterError` (the spec's
`ConfigurationError`), or an interpreter-level `TypeError` or
`AttributeError`, each carrying its message. -/
inductive PyError where
  | routerError : String → PyError
  | typeError : String → PyError
  | attributeError : String → PyError
deriving DecidableEq, Repr

/-- `iter(v)`: lists yield their elements, strings yield their characters
(as one-character strings); other values raise `TypeError`. -/
def pyIter : PyVal → Except PyError (List PyVal)
  | .vlist xs => .ok xs
  | .vstr s => .ok (s.data.map (fun c => PyVal.vstr (String.mk [c])))
  | v => .error (.typeError ("'" ++ pyTypeShort v ++ "' object is not iterable"))

/-- `str.upper()` as a map over the string's character sequence. -/
def strUpper (s : String) : String :=
  String.mk (s.data.map Char.toUpper)

/-- `v.upper()`: defined on strings, raises `AttributeError` otherwise. -/
def pyUpper : PyVal → Except PyError String
  | .vstr s => .ok (strUpper s)
  | v => .error (.attributeError ("'" ++ pyTypeShort v ++ "' object has no attribute 'upper'"))

/-- The generator expression `(i.upper() for i in ...)` run to completion:
upper-cases every element, propagating the first exception. -/
def upperAll : List PyVal → Except PyError (List String)
  | [] => .ok []
  | x :: xs =>
    match pyUpper x with
    | .error e => .error e
    | .ok s =>
      match upperAll xs with
      | .error e => .error e
      | .ok rest => .ok (s :: rest)

/-- A `Route` record (src/fusi/route.py): name, pattern, opaque handler
(its identity, see `funId`), and the normalized method tokens. -/
structure Route where
  name : String
  pattern : String
  handler : Nat
  methods : List String
deriving DecidableEq, Repr

/-- `Route.__init__`: stores name, pattern and handler verbatim and
normalizes `methods` by `tuple(set(i.upper() for i in methods))`.  The
upper-casing of a non-string element raises `AttributeError`; a
non-iterable `methods` raises `TypeError`.  CPython's set ordering is
unspecified, so the de-duplication order chosen here (`List.dedup`) is one
admissible ordering; no claim depends on the order of method tokens. -/
def routeInit (name pattern : String) (handler : Nat) (methods : PyVal) :
    Except PyError Route :=
  match pyIter methods with
  | .error e => .error e
  | .ok xs =>
    match upperAll xs with
    | .error e => .error e
    | .ok ups => .ok { name := name, pattern := pattern, handler := handler, methods := ups.dedup }

/-- The `Router` state (src/fusi/router.py): optional name, optional path
prefix (field `pfx` models the source's `prefix` attribute), and the
insertion-ordered mapping `_routes` from qualified name to `Route`. -/
structure Router where
  name : Option String
  pfx : Option String
  routes : List (String × Route)
deriving DecidableEq, Repr

/-- Python truthiness of an `Optional[str]`: `None` and `""` are falsy. -/
def truthy : Option String → Bool
  | some s => s != ""
  | none => false

/-- `pattern.startswith("/")`: the first character is `'/'`. -/
def startsWithSlash (s : String) : Bool :=
  match s.data with
  | [] => false
  | c :: _ => c == '/'

/-- `Router.__init__`: rejects a truthy `prefix` that does not start with a
slash, otherwise stores name and prefix with an empty registry. -/
def routerInit (name pfx : Option String) : Except PyError Router :=
  if truthy pfx && !(startsWithSlash (pfx.getD "")) then
    .error (.routerError
      ("Parameter 'prefix' must start with a leading slash '/' not '" ++ pfx.getD "" ++ "'"))
  else
    .ok { name := name, pfx := pfx, routes := [] }

/-- The `Router.routes` property: `list(self._routes.values())`. -/
def routesList (r : Router) : List Route :=
  r.routes.map Prod.snd

/-- `len(router)`: the number of registered routes. -/
def routerLen (r : Router) : Nat :=
  r.routes.length

/-- Dictionary lookup `self._routes[key]`, returning `none` for a missing
key (the `KeyError` branch). -/
def findRoute (r : Router) (key : String) : Option Route :=
  (r.routes.find? (fun pr => pr.1 == key)).map Prod.snd

/-- `key in self._routes`. -/
def containsKey (routes : List (String × Route)) (k : String) : Bool :=
  routes.any (fun pr => pr.1 == k)

/-- Dictionary assignment `self._routes[k] = v`: replaces the value in
place when the key is present, appends otherwise. -/
def dictInsert (routes : List (String × Route)) (k : String) (v : Route) :
    List (String × Route) :=
  if containsKey routes k then
    routes.map (fun pr => if pr.1 == k then (k, v) else pr)
  else
    routes ++ [(k, v)]

/-- `Router.match_name`: dictionary lookup; on `KeyError`, a truthy
`fallback` is retried as the name, otherwise the result is `None` (here
`none`).  The source's recursive call `self.match_name(fallback)` passes
the default `fallback=None`, so the recursion is bounded at one level and
is unrolled here; `matchName_none_eq_findRoute` identifies the unrolled
expression with a `matchName` call carrying no fallback.  The `try/except`
makes the operation total: it never raises. -/
def matchName (r : Router) (name : String) (fallback : Option String) : Option Route :=
  match findRoute r name with
  | some rt => some rt
  | none =>
    match fallback with
    | some f =>
      if f != "" then
        match findRoute r f with
        | some rt => some rt
        | none => none
      else none
    | none => none

/-- `Router.is_pattern_match`: the default pattern predicate, exact string
equality with the route's pattern. -/
def isPatternMatch (pattern : String) (route : Route) : Bool :=
  pattern == route.pattern

/-- `Router.match_pattern` (uncached body, see the header note): first route
in registration order satisfying `is_pattern_match`, else a truthy fallback
is resolved by `match_name` (with no further fallback), else no match. -/
def matchPattern (r : Router) (pattern : String) (fallback : Option String) : Option Route :=
  match (routesList r).find? (fun rt => isPatternMatch pattern rt) with
  | some rt => some rt
  | none =>
    match fallback with
    | some f => if f != "" then matchName r f none else none
    | none => none

/-- `Router.prepare_route_name`: `self.name + "." + name if self.name else name`. -/
def prepareRouteName (r : Router) (name : String) : String :=
  if truthy r.name then r.name.getD "" ++ "." ++ name else name

/-- `Router.check_route_name`: the default hook always accepts. -/
def checkRouteName (_r : Router) (_name : String) : Bool :=
  true

/-- `Router.prepare_route_pattern`: `self.prefix + pattern if self.prefix else pattern`. -/
def prepareRoutePattern (r : Router) (pattern : String) : String :=
  if truthy r.pfx then r.pfx.getD "" ++ pattern else pattern

/-- `Router.check_route_pattern`: raises `RouterError` when the (qualified)
pattern does not start with a slash, returns `True` otherwise. -/
def checkRoutePattern (pattern : String) : Except PyError Bool :=
  if !(startsWithSlash pattern) then
    .error (.routerError "'pattern' must start with a '/'")
  else
    .ok true

/-- `Router.prepare_route_handler`: the default hook is the identity. -/
def prepareRouteHandler (_r : Router) (handler : PyVal) : PyVal :=
  handler

/-- `Router.add_route`, state-passing.  Mirrors the source order: the three
`isinstance`/`callable` checks (note the source's bad-`name` message
interpolates `type(pattern)`), then name qualification and the duplicate
check, then pattern qualification, the always-true `check_route_name`, the
pattern check, the identity `prepare_route_handler`, `Route` construction,
and only then the dict assignment.  Every error branch leaves the router
unchanged because each `raise` precedes the assignment. -/
def addRoute (r : Router) (name pattern handler methods : PyVal) :
    Router × Except PyError Route :=
  if !(isStr name) then
    (r, .error (.routerError
      ("parameter 'name' must be a string, not '" ++ pyType pattern ++ "'")))
  else if !(isStr pattern) then
    (r, .error (.routerError
      ("parameter 'pattern' must be a string, not '" ++ pyType pattern ++ "'")))
  else if !(isCallable handler) then
    (r, .error (.routerError
      ("parameter 'handler' must be callable, not '" ++ pyType handler ++ "'")))
  else
    let routeName := prepareRouteName r (strOf name)
    if containsKey r.routes routeName then
      (r, .error (.routerError
        ("Route with name '" ++ strOf name ++ "' already exists")))
    else
      let routePattern := prepareRoutePattern r (strOf pattern)
      match checkRoutePattern routePattern with
      | .error e => (r, .error e)
      | .ok _ =>
        match routeInit routeName routePattern (funId (prepareRouteHandler r handler)) methods with
        | .error e => (r, .error e)
        | .ok route =>
          ({ r with routes := dictInsert r.routes routeName route }, .ok route)

/-- An argument to `router.__contains__`: either a `Route` object or a
string (e.g. a qualified name). -/
inductive ContainsArg where
  | routeArg : Route → ContainsArg
  | strArg : String → ContainsArg
deriving DecidableEq, Repr

/-- `Router.__contains__`: `item in self.routes`, list membership in the
route *values*.  `Route` defines no `__eq__`, so Python compares routes by
identity (structural equality here stands in for it) and a string compares
unequal to every `Route`, making the string case constantly false. -/
def routerContains (r : Router) : ContainsArg → Bool
  | .routeArg rt => (routesList r).contains rt
  | .strArg _ => false

/-- Routers reachable from a (successful) construction by any sequence of
`add_route` calls, successful or failed. -/
inductive Reachable : Router → Prop where
  | init : ∀ name pfx r, routerInit name pfx = .ok r → Reachable r
  | step : ∀ r name pattern handler methods, Reachable r →
      Reachable (addRoute r name pattern handler methods).1

/-- Demo route used by concrete witnesses. -/
def rtOk : Route := { name := "ok", pattern := "/ok", handler := 0, methods := ["GET"] }

/-- Demo router holding the single route `rtOk` under its name. -/
def routerOk : Router := { name := none, pfx := none, routes := [("ok", rtOk)] }

/-- The freshly constructed anonymous router. -/
def routerEmpty : Router := { name := none, pfx := none, routes := [] }

/-- An anonymous router with prefix `/v1`. -/
def routerV1 : Router := { name := none, pfx := some "/v1", routes := [] }

/-- A router holding a route registered under the empty qualified name. -/
def routerEmptyName : Router :=
  (addRoute routerEmpty (.vstr "") (.vstr "/x") (.vfun 0) (.vlist [.vstr "GET"])).1

/-- Demo route at index 0 of `r2demo`. -/
def rA : Route := { name := "a", pattern := "/x", handler := 0, methods := ["GET"] }

/-- Demo route at index 1 of `r2demo`. -/
def rB : Route := { name := "b", pattern := "/y", handler := 1, methods := ["GET"] }

/-- Demo router holding `rA` then `rB`, in that registration order. -/
def r2demo : Router := { name := none, pfx := none, routes := [("a", rA), ("b", rB)] }

/-- A successfully constructed `Route` carries the name, pattern and handler
it was given. -/
theorem routeInit_ok_fields (a b : String) (c : Nat) (m : PyVal) (rt : Route)
    (hri : routeInit a b c m = Except.ok rt) :
    rt.name = a ∧ rt.pattern = b ∧ rt.handler = c := by
  unfold routeInit at hri
  repeat' split at hri
  all_goals simp_all
  all_goals (cases hri; simp)

/-- Assigning a fresh key to the dictionary appends the pair. -/
theorem dictInsert_fresh (routes : List (String × Route)) (k : String) (v : Route)
    (hk : containsKey routes k = false) :
    dictInsert routes k v = routes ++ [(k, v)] := by
  simp [dictInsert, hk]

/-- Complete case analysis of `addRoute`: either it fails and returns the
router unchanged, or it succeeds and appends a route carrying the qualified
name and qualified pattern, the qualified name being fresh. -/
theorem addRoute_shape (r : Router) (n p h m : PyVal) :
    ((addRoute r n p h m).1 = r ∧ ∃ e, (addRoute r n p h m).2 = Except.error e) ∨
    (∃ rt, (addRoute r n p h m).2 = Except.ok rt ∧
      rt.name = prepareRouteName r (strOf n) ∧
      rt.pattern = prepareRoutePattern r (strOf p) ∧
      containsKey r.routes rt.name = false ∧
      (addRoute r n p h m).1.routes = r.routes ++ [(rt.name, rt)] ∧
      (addRoute r n p h m).1.name = r.name ∧
      (addRoute r n p h m).1.pfx = r.pfx) := by
  cases hn : isStr n with
  | false => exact Or.inl ⟨by simp [addRoute, hn], by simp [addRoute, hn]⟩
  | true =>
  cases hp : isStr p with
  | false => exact Or.inl ⟨by simp [addRoute, hn, hp], by simp [addRoute, hn, hp]⟩
  | true =>
  cases hc : isCallable h with
  | false => exact Or.inl ⟨by simp [addRoute, hn, hp, hc], by simp [addRoute, hn, hp, hc]⟩
  | true =>
  cases hdup : containsKey r.routes (prepareRouteName r (strOf n)) with
  | true => exact Or.inl ⟨by simp [addRoute, hn, hp, hc, hdup], by simp [addRoute, hn, hp, hc, hdup]⟩
  | false =>
  cases hcp : checkRoutePattern (prepareRoutePattern r (strOf p)) with
  | error e =>
    exact Or.inl ⟨by simp [addRoute, hn, hp, hc, hdup, hcp], by simp [addRoute, hn, hp, hc, hdup, hcp]⟩
  | ok b =>
  cases hri : routeInit (prepareRouteName r (strOf n)) (prepareRoutePattern r (strOf p))
      (funId (prepareRouteHandler r h)) m with
  | error e =>
    exact Or.inl ⟨by simp [addRoute, hn, hp, hc, hdup, hcp, hri],
      by simp [addRoute, hn, hp, hc, hdup, hcp, hri]⟩
  | ok rt =>
    obtain ⟨hname, hpat, _⟩ := routeInit_ok_fields _ _ _ _ _ hri
    refine Or.inr ⟨rt, ?_, hname, hpat, ?_, ?_, ?_, ?_⟩
    · simp [addRoute, hn, hp, hc, hdup, hcp, hri]
    · rw [hname]; exact hdup
    · simp [addRoute, hn, hp, hc, hdup, hcp, hri, dictInsert_fresh, hname]
    · simp [addRoute, hn, hp, hc, hdup, hcp, hri]
    · simp [addRoute, hn, hp, hc, hdup, hcp, hri]

/-- A failed `addRoute` leaves the router untouched. -/
theorem addRoute_error_fst (r : Router) (n p h m : PyVal) (e : PyError)
    (herr : (addRoute r n p h m).2 = Except.error e) :
    (addRoute r n p h m).1 = r := by
  rcases addRoute_shape r n p h m with ⟨hfst, _⟩ | ⟨rt, hok, _⟩
  · exact hfst
  · rw [hok] at herr; cases herr

/-- A successful `addRoute` returns a route whose fields are the qualified
data and appends exactly that route under its (fresh) qualified name. -/
theorem addRoute_ok_spec (r : Router) (n p h m : PyVal) (r' : Router) (rt : Route)
    (hok : addRoute r n p h m = (r', Except.ok rt)) :
    rt.name = prepareRouteName r (strOf n) ∧
    rt.pattern = prepareRoutePattern r (strOf p) ∧
    containsKey r.routes rt.name = false ∧
    r'.routes = r.routes ++ [(rt.name, rt)] := by
  rcases addRoute_shape r n p h m with ⟨_, e, herr⟩ | ⟨rt', hok', hname, hpat, hfresh, happ, _, _⟩
  · rw [hok] at herr; cases herr
  · rw [hok] at hok' happ
    cases hok'
    exact ⟨hname, hpat, hfresh, happ⟩

/-- A `matchName` call without fallback is the plain dictionary lookup. -/
theorem matchName_none_eq_findRoute (r : Router) (name : String) :
    matchName r name none = findRoute r name := by
  unfold matchName
  cases findRoute r name <;> rfl

/-- The failing dictionary lookup is the absent key. -/
theorem findRoute_eq_none_iff (r : Router) (k : String) :
    findRoute r k = none ↔ containsKey r.routes k = false := by
  simp [findRoute, containsKey, List.find?_eq_none, List.any_eq_true]

/-- Appending a pair under a fresh key makes it the one `find?` returns. -/
theorem find?_append_fresh (routes : List (String × Route)) (k : String) (v : Route)
    (hk : containsKey routes k = false) :
    (routes ++ [(k, v)]).find? (fun pr => pr.1 == k) = some (k, v) := by
  induction routes with
  | nil => simp
  | cons a rest ih =>
    simp only [containsKey, List.any_cons, Bool.or_eq_false_iff] at hk
    simp only [List.cons_append, List.find?_cons, hk.1]
    exact ih hk.2

/-- A present key short-circuits `matchName`, whatever the fallback. -/
theorem matchName_found (r : Router) (k : String) (fb : Option String) (rt : Route)
    (hf : findRoute r k = some rt) : matchName r k fb = some rt := by
  unfold matchName
  rw [hf]

/-- On an absent key, `matchName` defers to the truthy-fallback retry. -/
theorem matchName_absent (r : Router) (k : String) (fb : Option String)
    (hf : findRoute r k = none) :
    matchName r k fb = (match fb with
      | some f => if f != "" then matchName r f none else none
      | none => none) := by
  unfold matchName
  rw [hf]

/-- `find?` returns the element at the least index satisfying the predicate. -/
theorem find?_first_index {α : Type} (xs : List α) (pred : α → Bool) :
    ∀ (i : Nat) (h : i < xs.length), pred (xs.get ⟨i, h⟩) = true →
      (∀ (j : Nat) (hj : j < xs.length), j < i → pred (xs.get ⟨j, hj⟩) = false) →
      xs.find? pred = some (xs.get ⟨i, h⟩) := by
  induction xs with
  | nil => intro i h; exact absurd h (by simp)
  | cons a rest ih =>
    intro i h hi hmin
    cases i with
    | zero => simpa using List.find?_cons_of_pos rest (by simpa using hi)
    | succ n =>
      have ha : pred a = false := hmin 0 (by simp) (Nat.succ_pos n)
      rw [List.find?_cons_of_neg _ (by simp [ha])]
      exact ih n (by simpa using h) (by simpa using hi)
        (fun j hj hlt => by simpa using hmin (j + 1) (by simpa using hj) (Nat.succ_lt_succ hlt))

/-- A false `containsKey` is absence from the key column. -/
theorem containsKey_false_not_mem (routes : List (String × Route)) (k : String)
    (h : containsKey routes k = false) : k ∉ routes.map Prod.fst := by
  simp only [containsKey, List.any_eq_false] at h
  simp only [List.mem_map]
  rintro ⟨x, hx, rfl⟩
  simpa using h x hx

/-- Reachability invariant: every stored key is its route's name, and the
key column is duplicate-free. -/
theorem reachable_key_eq_name_nodup (r : Router) (hr : Reachable r) :
    (∀ pr ∈ r.routes, pr.1 = pr.2.name) ∧ (r.routes.map Prod.fst).Nodup := by
  induction hr with
  | init name pfx r0 hinit =>
    unfold routerInit at hinit
    split at hinit
    · cases hinit
    · cases hinit; exact ⟨by simp, by simp⟩
  | step r0 n p h m hr0 ih =>
    rcases addRoute_shape r0 n p h m with ⟨hfst, -⟩ | ⟨rt, hok, hname, hpat, hfresh, happ, -, -⟩
    · rw [hfst]; exact ih
    · rw [happ]
      constructor
      · intro pr hpr
        rcases List.mem_append.mp hpr with hin | hin
        · exact ih.1 pr hin
        · simp only [List.mem_singleton] at hin
          rw [hin]
      · rw [List.map_append, List.nodup_append]
        refine ⟨ih.2, List.nodup_singleton _, ?_⟩
        intro a ha hb
        simp only [List.map_cons, List.map_nil, List.mem_singleton] at hb
        subst hb
        exact containsKey_false_not_mem _ _ hfresh ha

/-- With a present leading slash, appending keeps the leading slash. -/
theorem startsWithSlash_append (a b : String) (ha : startsWithSlash a = true) :
    startsWithSlash (a ++ b) = true := by
  cases a with
  | mk da =>
    cases b with
    | mk db =>
      cases da with
      | nil => simp [startsWithSlash] at ha
      | cons c rest => exact ha

/-- Upper-casing a list of Python strings never raises. -/
theorem upperAll_vstr (ms : List String) :
    upperAll (ms.map PyVal.vstr) = Except.ok (ms.map strUpper) := by
  induction ms with
  | nil => rfl
  | cons a rest ih => simp [upperAll, pyUpper, ih]

/-- `Route` construction from a list of string method tokens always
succeeds, normalizing the tokens. -/
theorem routeInit_vstr (a b : String) (c : Nat) (ms : List String) :
    routeInit a b c (PyVal.vlist (ms.map PyVal.vstr))
      = Except.ok { name := a, pattern := b, handler := c, methods := (ms.map strUpper).dedup } := by
  simp [routeInit, pyIter, upperAll_vstr]

/-- C1: for every registration accepted by `add_route` (in particular every
valid input whose qualified name was not yet registered), `match_name` on
the returned route's qualified name returns that same route. -/
theorem add_route_then_match_name (r r' : Router) (n p h m : PyVal) (rt : Route)
    (hok : addRoute r n p h m = (r', Except.ok rt)) :
    matchName r' rt.name none = some rt := by
  obtain ⟨hname, hpat, hfresh, happ⟩ := addRoute_ok_spec r n p h m r' rt hok
  rw [matchName_none_eq_findRoute]
  unfold findRoute
  rw [happ, find?_append_fresh _ _ _ hfresh]
  rfl

/-- Witness for C1: registering `home` on `Router(name="public")` and
looking up `public.home` returns the stored route. -/
theorem add_route_then_match_name_witness :
    matchName
      { name := some "public", pfx := none,
        routes := [("public.home",
          { name := "public.home", pattern := "/", handler := 7, methods := ["GET"] })] }
      "public.home" none
      = some { name := "public.home", pattern := "/", handler := 7, methods := ["GET"] } :=
  add_route_then_match_name
    { name := some "public", pfx := none, routes := [] } _
    (.vstr "home") (.vstr "/") (.vfun 7) (.vlist [.vstr "GET"]) _ (by rfl)

/-- Counterexample to C2 as stated: `Router(name="")` has a name, yet the
stored route name is the given name verbatim, not `"" + "." + given`. -/
theorem add_route_qualification_counterexample :
    (addRoute { name := some "", pfx := none, routes := [] }
        (.vstr "home") (.vstr "/") (.vfun 0) (.vlist [.vstr "GET"])).2
      = Except.ok { name := "home", pattern := "/", handler := 0, methods := ["GET"] }
    ∧ ("home" : String) ≠ "" ++ "." ++ "home" :=
  ⟨by rfl, by decide⟩

/-- C2 (amended): the stored name is `router_name + "." + given` exactly
when the router's name is present and non-empty (an empty-string name
behaves like no name), and the stored pattern is `prefix + given` whenever
a prefix is present (the empty prefix coincides with no prefix) and the
given pattern otherwise. -/
theorem add_route_qualification_amended (r : Router) (n p h m : PyVal) (r' : Router) (rt : Route)
    (hok : addRoute r n p h m = (r', Except.ok rt)) :
    rt.name = (match r.name with
      | some nm => if nm = "" then strOf n else nm ++ "." ++ strOf n
      | none => strOf n) ∧
    rt.pattern = (match r.pfx with
      | some pf => pf ++ strOf p
      | none => strOf p) := by
  obtain ⟨hname, hpat, -, -⟩ := addRoute_ok_spec r n p h m r' rt hok
  constructor
  · rw [hname]
    unfold prepareRouteName truthy
    cases r.name with
    | none => rfl
    | some nm => by_cases hnm : nm = "" <;> simp [hnm]
  · rw [hpat]
    unfold prepareRoutePattern truthy
    cases r.pfx with
    | none => rfl
    | some pf => by_cases hpf : pf = "" <;> simp [hpf]

/-- Witness for C2 (amended): `Router(name="public", prefix="/v1")` stores
`public.home` and `/v1/`. -/
theorem add_route_qualification_amended_witness :
    ((addRoute { name := some "public", pfx := some "/v1", routes := [] }
        (.vstr "home") (.vstr "/") (.vfun 0) (.vlist [.vstr "GET"])).2
      = Except.ok { name := "public.home", pattern := "/v1/", handler := 0, methods := ["GET"] })
    ∧ ("public.home" : String) = "public" ++ "." ++ "home"
    ∧ ("/v1/" : String) = "/v1" ++ "/" := by
  refine ⟨by rfl, ?_, ?_⟩
  · have := add_route_qualification_amended
      { name := some "public", pfx := some "/v1", routes := [] }
      (.vstr "home") (.vstr "/") (.vfun 0) (.vlist [.vstr "GET"]) _ _ (by rfl)
    exact this.1
  · have := add_route_qualification_amended
      { name := some "public", pfx := some "/v1", routes := [] }
      (.vstr "home") (.vstr "/") (.vfun 0) (.vlist [.vstr "GET"]) _ _ (by rfl)
    exact this.2

/-- C3: the default predicate is exact string equality with the route's
pattern; `match_pattern` returns the route at the least registration index
satisfying the predicate; when no owned route matches, a truthy fallback is
resolved by `match_name` (with no further fallback) and otherwise the
result is the no-match `none`. -/
theorem match_pattern_spec (r : Router) (p : String) (fb : Option String) :
    (∀ rt : Route, isPatternMatch p rt = (p == rt.pattern)) ∧
    (∀ (i : Nat) (h : i < (routesList r).length),
       isPatternMatch p ((routesList r).get ⟨i, h⟩) = true →
       (∀ (j : Nat) (hj : j < (routesList r).length), j < i →
          isPatternMatch p ((routesList r).get ⟨j, hj⟩) = false) →
       matchPattern r p fb = some ((routesList r).get ⟨i, h⟩)) ∧
    ((∀ rt ∈ routesList r, isPatternMatch p rt = false) →
       matchPattern r p fb = (match fb with
         | some f => if f != "" then matchName r f none else none
         | none => none)) := by
  refine ⟨fun rt => rfl, ?_, ?_⟩
  · intro i h hi hmin
    unfold matchPattern
    rw [find?_first_index (routesList r) _ i h hi hmin]
  · intro hall
    unfold matchPattern
    rw [List.find?_eq_none.mpr (fun x hx => by simp [hall x hx])]

/-- Witness for C3: on a two-route router, `/y` selects the second route
(the first fails the predicate) and an unmatched pattern with fallback `a`
resolves through `match_name`. -/
theorem match_pattern_spec_witness :
    matchPattern r2demo "/y" none = some rB ∧
    matchPattern r2demo "/z" (some "a") = matchName r2demo "a" none := by
  constructor
  · exact (match_pattern_spec r2demo "/y" none).2.1 1 (by decide) (by decide) (by decide)
  · have := (match_pattern_spec r2demo "/z" (some "a")).2.2 (by decide)
    simpa using this

/-- C4: `match_name` is total (its result type is `Option Route`; the
`KeyError` is caught): on an absent name it retries a supplied (truthy)
fallback as the name with no further fallback, returns `none` when the
fallback name is also absent, and returns `none` when no fallback is
supplied. -/
theorem match_name_fallback_spec (r : Router) (name : String) (fb : Option String)
    (habs : findRoute r name = none) :
    (∀ f, fb = some f → f ≠ "" → matchName r name fb = matchName r f none) ∧
    (∀ f, fb = some f → f ≠ "" → findRoute r f = none → matchName r name fb = none) ∧
    (fb = none → matchName r name fb = none) := by
  refine ⟨?_, ?_, ?_⟩
  · intro f hfb hne
    subst hfb
    rw [matchName_absent r name _ habs]
    simp [hne]
  · intro f hfb hne hf2
    subst hfb
    rw [matchName_absent r name _ habs]
    simp [hne, matchName_none_eq_findRoute, hf2]
  · intro hfb
    subst hfb
    rw [matchName_absent r name _ habs]

/-- Witness for C4: `match_name("missing", fallback="ok")` retries the
fallback, an absent fallback name yields `none`, and no fallback yields
`none`. -/
theorem match_name_fallback_spec_witness :
    matchName routerOk "missing" (some "ok") = matchName routerOk "ok" none
    ∧ matchName routerOk "missing" (some "nope") = none
    ∧ matchName routerOk "missing" none = none := by
  refine ⟨?_, ?_, ?_⟩
  · exact (match_name_fallback_spec routerOk "missing" (some "ok") (by rfl)).1 "ok" rfl
      (by decide)
  · exact (match_name_fallback_spec routerOk "missing" (some "nope") (by rfl)).2.1 "nope" rfl
      (by decide) (by rfl)
  · exact (match_name_fallback_spec routerOk "missing" none (by rfl)).2.2 rfl

/-- C5: a failed `add_route` leaves the registry unchanged — the router, its
size and its name-to-route mapping are the same after the failure. -/
theorem add_route_failure_preserves_registry (r : Router) (n p h m : PyVal)
    (r' : Router) (e : PyError)
    (herr : addRoute r n p h m = (r', Except.error e)) :
    r' = r ∧ routerLen r' = routerLen r ∧ ∀ k, findRoute r' k = findRoute r k := by
  have h2 : (addRoute r n p h m).2 = Except.error e := by rw [herr]
  have h1 : (addRoute r n p h m).1 = r := addRoute_error_fst r n p h m e h2
  rw [herr] at h1
  have h3 : r' = r := h1
  exact ⟨h3, by rw [h3], fun k => by rw [h3]⟩

/-- Witness for C5: a duplicate registration of `ok` fails and the registry
keeps its size and mapping. -/
theorem add_route_failure_preserves_registry_witness :
    (addRoute routerOk (.vstr "ok") (.vstr "/ok") (.vfun 1) (.vlist [.vstr "GET"])).1 = routerOk
    ∧ routerLen (addRoute routerOk (.vstr "ok") (.vstr "/ok") (.vfun 1) (.vlist [.vstr "GET"])).1
        = routerLen routerOk
    ∧ ∀ k, findRoute
        (addRoute routerOk (.vstr "ok") (.vstr "/ok") (.vfun 1) (.vlist [.vstr "GET"])).1 k
        = findRoute routerOk k :=
  add_route_failure_preserves_registry routerOk (.vstr "ok") (.vstr "/ok") (.vfun 1)
    (.vlist [.vstr "GET"])
    (addRoute routerOk (.vstr "ok") (.vstr "/ok") (.vfun 1) (.vlist [.vstr "GET"])).1
    (.routerError "Route with name 'ok' already exists") (by rfl)

/-- C6: on every reachable router state no two owned routes share a
qualified name, and registering a name whose qualified form is already
present fails with a `RouterError` (the spec's `ConfigurationError`). -/
theorem unique_qualified_names (r : Router) (hr : Reachable r) :
    ((routesList r).map Route.name).Nodup ∧
    (∀ n p h m : PyVal, containsKey r.routes (prepareRouteName r (strOf n)) = true →
      ∃ msg, (addRoute r n p h m).2 = Except.error (PyError.routerError msg)) := by
  obtain ⟨hkey, hnodup⟩ := reachable_key_eq_name_nodup r hr
  constructor
  · have hmap : (routesList r).map Route.name = r.routes.map Prod.fst := by
      unfold routesList
      rw [List.map_map]
      exact List.map_congr_left (fun pr hpr => (hkey pr hpr).symm)
    rw [hmap]
    exact hnodup
  · intro n p h m hdup
    cases hn : isStr n with
    | false =>
      exact ⟨"parameter 'name' must be a string, not '" ++ pyType p ++ "'",
        by simp [addRoute, hn]⟩
    | true =>
    cases hp : isStr p with
    | false =>
      exact ⟨"parameter 'pattern' must be a string, not '" ++ pyType p ++ "'",
        by simp [addRoute, hn, hp]⟩
    | true =>
    cases hc : isCallable h with
    | false =>
      exact ⟨"parameter 'handler' must be callable, not '" ++ pyType h ++ "'",
        by simp [addRoute, hn, hp, hc]⟩
    | true =>
      exact ⟨"Route with name '" ++ strOf n ++ "' already exists",
        by simp [addRoute, hn, hp, hc, hdup]⟩

/-- Witness for C6: the router reached by registering `ok` has
duplicate-free route names, and re-registering `ok` fails with a
`RouterError`. -/
theorem unique_qualified_names_witness :
    ((routesList routerOk).map Route.name).Nodup ∧
    (∃ msg, (addRoute routerOk (.vstr "ok") (.vstr "/ok") (.vfun 1) (.vlist [.vstr "GET"])).2
      = Except.error (PyError.routerError msg)) := by
  have h0 : Reachable routerEmpty := Reachable.init none none _ rfl
  have h1 : Reachable routerOk :=
    Reachable.step routerEmpty (.vstr "ok") (.vstr "/ok") (.vfun 0) (.vlist [.vstr "GET"]) h0
  have h := unique_qualified_names _ h1
  exact ⟨h.1, h.2 (.vstr "ok") (.vstr "/ok") (.vfun 1) (.vlist [.vstr "GET"]) (by rfl)⟩

/-- C7 (code bug): the bad-`name` error interpolates `type(pattern)` — here
`name` is an int yet the message reports `<class 'str'>`, the pattern's
type — and `methods` is never validated: a non-iterable `methods` escapes as
an interpreter `TypeError` from `Route.__init__` instead of the claimed
configuration error. -/
theorem add_route_type_check_bug :
    ((addRoute routerEmpty (.vint 1) (.vstr "/one") (.vfun 0) (.vlist [.vstr "get"])).2
      = Except.error (.routerError "parameter 'name' must be a string, not '<class 'str'>'"))
    ∧ ((addRoute routerEmpty (.vstr "ok") (.vstr "/ok") (.vfun 0) (.vint 5)).2
      = Except.error (.typeError "'int' object is not iterable")) :=
  ⟨by rfl, by rfl⟩

/-- Counterexample to C8 as stated: a route is registered under qualified
name `test`, yet the containment check with the string `test` returns
false (`__contains__` compares against the route values, and a string never
equals a `Route`). -/
theorem contains_counterexample :
    ((addRoute routerEmpty (.vstr "test") (.vstr "/test") (.vfun 0) (.vlist [.vstr "GET"])).1.routes.map
        Prod.fst = ["test"])
    ∧ routerContains
        (addRoute routerEmpty (.vstr "test") (.vstr "/test") (.vfun 0) (.vlist [.vstr "GET"])).1
        (.strArg "test") = false :=
  ⟨by rfl, by rfl⟩

/-- C8 (amended): containment of a `Route` value holds exactly when that
route is among the registered route values; containment of a string (in
particular a qualified name) is always false. -/
theorem contains_amended (r : Router) :
    (∀ rt : Route, routerContains r (.routeArg rt) = true ↔ rt ∈ routesList r) ∧
    (∀ s : String, routerContains r (.strArg s) = false) := by
  refine ⟨fun rt => ?_, fun s => rfl⟩
  simp [routerContains]

/-- Witness for C8 (amended): the registered route is contained, its name
string is not. -/
theorem contains_amended_witness :
    routerContains routerOk (.routeArg rtOk) = true
    ∧ routerContains routerOk (.strArg "ok") = false :=
  ⟨((contains_amended routerOk).1 rtOk).mpr (by decide), (contains_amended routerOk).2 "ok"⟩

/-- C9: the pattern-shape check runs on the qualified pattern only: with a
non-empty slash-led prefix any given pattern (slash-less included) is
accepted and stored as `prefix ++ pattern`, while without a (truthy) prefix
a slash-less pattern is rejected. -/
theorem pattern_check_on_qualified_only
    (r r2 : Router) (pf nm pat nm2 pat2 : String) (k : Nat) (ms : List String)
    (hpfx : r.pfx = some pf) (hne : pf ≠ "") (hsl : startsWithSlash pf = true)
    (hfresh : containsKey r.routes (prepareRouteName r nm) = false)
    (hnopfx : truthy r2.pfx = false)
    (hfresh2 : containsKey r2.routes (prepareRouteName r2 nm2) = false)
    (hnoslash : startsWithSlash pat2 = false) :
    ((addRoute r (.vstr nm) (.vstr pat) (.vfun k) (.vlist (ms.map PyVal.vstr))).2
        = Except.ok { name := prepareRouteName r nm, pattern := pf ++ pat,
                      handler := k, methods := (ms.map strUpper).dedup }) ∧
    ((addRoute r2 (.vstr nm2) (.vstr pat2) (.vfun k) (.vlist (ms.map PyVal.vstr))).2
        = Except.error (PyError.routerError "'pattern' must start with a '/'")) := by
  constructor
  · have hprep : prepareRoutePattern r pat = pf ++ pat := by
      unfold prepareRoutePattern truthy
      rw [hpfx]
      simp [hne]
    have hchk : checkRoutePattern (pf ++ pat) = Except.ok true := by
      unfold checkRoutePattern
      rw [startsWithSlash_append pf pat hsl]
      simp
    simp [addRoute, isStr, isCallable, strOf, hfresh, hprep, hchk, routeInit_vstr,
      funId, prepareRouteHandler]
  · have hprep2 : prepareRoutePattern r2 pat2 = pat2 := by
      unfold prepareRoutePattern
      simp [hnopfx]
    have hchk2 : checkRoutePattern pat2
        = Except.error (.routerError "'pattern' must start with a '/'") := by
      unfold checkRoutePattern
      rw [hnoslash]
      simp
    simp [addRoute, isStr, isCallable, strOf, hfresh2, hprep2, hchk2]

/-- Witness for C9: prefix `/v1` with pattern `users` yields the stored
pattern `/v1users`, while the prefix-less router rejects pattern `fail`. -/
theorem pattern_check_on_qualified_only_witness :
    ((addRoute routerV1 (.vstr "users") (.vstr "users") (.vfun 0) (.vlist [.vstr "GET"])).2
      = Except.ok { name := "users", pattern := "/v1users", handler := 0, methods := ["GET"] })
    ∧ ((addRoute routerEmpty (.vstr "fail") (.vstr "fail") (.vfun 0) (.vlist [.vstr "GET"])).2
      = Except.error (PyError.routerError "'pattern' must start with a '/'")) :=
  pattern_check_on_qualified_only routerV1 routerEmpty
    "/v1" "users" "users" "fail" "fail" 0 ["GET"]
    rfl (by decide) (by rfl) (by rfl) (by rfl) (by rfl) (by rfl)

/-- C10: an empty-string fallback is falsy, so both lookups return the
no-match `none` when their primary key misses, even though a route may be
registered under the qualified name `""`. -/
theorem empty_fallback_spec (r : Router) (nm pat : String)
    (hn : findRoute r nm = none)
    (hp : ∀ rt ∈ routesList r, isPatternMatch pat rt = false) :
    matchName r nm (some "") = none ∧ matchPattern r pat (some "") = none := by
  constructor
  · rw [matchName_absent r nm _ hn]
    simp
  · unfold matchPattern
    rw [List.find?_eq_none.mpr (fun x hx => by simp [hp x hx])]
    simp

/-- Witness for C10: `routerEmptyName` owns a route registered under the
qualified name `""` (accepted by `add_route` because the router has no
name), yet both lookups with the empty-string fallback return `none`. -/
theorem empty_fallback_spec_witness :
    (findRoute routerEmptyName ""
      = some { name := "", pattern := "/x", handler := 0, methods := ["GET"] })
    ∧ matchName routerEmptyName "missing" (some "") = none
    ∧ matchPattern routerEmptyName "/nohit" (some "") = none := by
  refine ⟨by rfl, ?_, ?_⟩
  · exact (empty_fallback_spec routerEmptyName "missing" "/nohit" (by rfl) (by decide)).1
  · exact (empty_fallback_spec routerEmptyName "missing" "/nohit" (by rfl) (by decide)).2

end Fusi
